import Mathlib

/-!
Shallow embedding of the coordination core of the distributed-llm
repository (Go), together with proofs of its specified properties.

Conventions of the embedding:
* Go `time.Time` and `time.Duration` are modelled as `Int` nanoseconds
  (Go durations are nanosecond counts); `time.Since(t)` at instant `now`
  is `now - t`.
* Go `int`, `int32`, `int64` are modelled as `Int`; where the source
  accumulates in a fixed width, the addition is wrapped explicitly
  (`wrap32`, `wrap64`) to Go's two's-complement overflow semantics.
* Go's `float32` arithmetic is modelled by correct rounding (round to
  nearest, ties to even): every binary32 value is a rational, so each
  operation is the exact rounding function `roundF32` applied in `ℚ`.
* A Go function returning `(T, error)` is modelled as `Except String T`;
  a Go method that cannot fail is a total Lean function.
* Fields omitted from a Go composite literal take Go's zero value; the
  embedding writes those zero values explicitly.
-/

namespace models

/-- GPUInfo from pkg/models/types.go: name, memory (MB), UUID. -/
structure GPUInfo where
  name : String
  memoryMB : Int
  uuid : String
deriving Repr, DecidableEq

/-- NodeStatus from pkg/models/types.go: online | offline | busy. -/
inductive NodeStatus where
  | online
  | offline
  | busy
deriving Repr, DecidableEq

/-- Wire string of a NodeStatus (Go `string(node.Status)`). -/
def NodeStatus.toWire : NodeStatus → String
  | .online => "online"
  | .offline => "offline"
  | .busy => "busy"

/-- ResourceInfo from pkg/models/types.go. -/
structure ResourceInfo where
  cpuCores : Int
  memoryMB : Int
  gpus : List GPUInfo
  maxLayers : Int
  usedLayers : Int
deriving Repr, DecidableEq

/-- Go zero value of ResourceInfo (all-zero fields, empty GPU list). -/
def ResourceInfo.zero : ResourceInfo :=
  { cpuCores := 0, memoryMB := 0, gpus := [], maxLayers := 0, usedLayers := 0 }

/-- Node from pkg/models/types.go; `lastSeen` is Unix nanoseconds. -/
structure Node where
  id : String
  address : String
  port : Int
  resources : ResourceInfo
  status : NodeStatus
  lastSeen : Int
deriving Repr, DecidableEq

/-- Five minutes as a Go `time.Duration` (nanoseconds). -/
def fiveMinutes : Int := 5 * 60 * 1000000000

/-- Ten minutes as a Go `time.Duration` (nanoseconds). -/
def tenMinutes : Int := 10 * 60 * 1000000000

/-- Node.IsHealthy from pkg/models/types.go:
`n.Status == NodeStatusOnline && time.Since(n.LastSeen) < 5*time.Minute`,
evaluated at instant `now`. -/
def Node.IsHealthy (now : Int) (n : Node) : Bool :=
  n.status == NodeStatus.online && decide (now - n.lastSeen < fiveMinutes)

end models

namespace pb

/-- Wire (protobuf) GPUInfo message. -/
structure GPUInfo where
  name : String
  memoryMb : Int
  uuid : String
deriving Repr, DecidableEq

/-- Wire (protobuf) ResourceInfo message; `used_layers` is field 5. -/
structure ResourceInfo where
  cpuCores : Int
  memoryMb : Int
  gpus : List GPUInfo
  maxLayers : Int
  usedLayers : Int
deriving Repr, DecidableEq

/-- Wire (protobuf) NodeInfo message; `lastSeen` is Unix seconds in Go,
kept here as the models-level instant. -/
structure NodeInfo where
  nodeId : String
  address : String
  port : Int
  resources : ResourceInfo
  status : String
  lastSeen : Int
deriving Repr, DecidableEq

/-- Wire (protobuf) CommandResponse message. -/
structure CommandResponse where
  success : Bool
  output : String
  error : String
  exitCode : Int
deriving Repr, DecidableEq

/-- Wire (protobuf) ClusterMetrics message; the float32 utilization
field carries the correctly-rounded binary32 value, represented
exactly in ℚ. -/
structure ClusterMetrics where
  totalNodes : Int
  healthyNodes : Int
  totalMemoryMb : Int
  availableMemoryMb : Int
  totalGpus : Int
  totalLayers : Int
  allocatedLayers : Int
  clusterUtilization : ℚ
deriving Repr, DecidableEq

/-- Wire (protobuf) DiscoveryResponse message. -/
structure DiscoveryResponse where
  discoveredNodes : List NodeInfo
  success : Bool
  message : String
deriving Repr, DecidableEq

end pb

namespace models

/-- ResourceInfo.ToProto from pkg/models/types.go. The Go composite
literal sets CpuCores, MemoryMb, Gpus and MaxLayers only; the protobuf
UsedLayers field is left at its zero value. -/
def ResourceInfo.ToProto (r : ResourceInfo) : pb.ResourceInfo :=
  { cpuCores := r.cpuCores
    memoryMb := r.memoryMB
    gpus := r.gpus.map (fun gpu =>
      { name := gpu.name, memoryMb := gpu.memoryMB, uuid := gpu.uuid })
    maxLayers := r.maxLayers
    usedLayers := 0 }

/-- ResourceInfoFromProto from pkg/models/types.go. The Go composite
literal sets CPUCores, MemoryMB, GPUs and MaxLayers only; UsedLayers is
left at its zero value. -/
def ResourceInfoFromProto (pbRes : pb.ResourceInfo) : ResourceInfo :=
  { cpuCores := pbRes.cpuCores
    memoryMB := pbRes.memoryMb
    gpus := pbRes.gpus.map (fun gpu =>
      { name := gpu.name, memoryMB := gpu.memoryMb, uuid := gpu.uuid })
    maxLayers := pbRes.maxLayers
    usedLayers := 0 }

end models

/-- Go int32 wrap-around semantics: reduce an integer into
[-2^31, 2^31), as Go `int32` addition and `int32(...)` conversion do. -/
def wrap32 (x : Int) : Int :=
  (x + 2147483648) % 4294967296 - 2147483648

/-- Go int64 wrap-around semantics: reduce an integer into
[-2^63, 2^63). -/
def wrap64 (x : Int) : Int :=
  (x + 9223372036854775808) % 18446744073709551616 - 9223372036854775808

/-- Round a rational to the nearest integer, ties to even — the
rounding of every IEEE-754 operation in Go's default mode. -/
def rne (q : ℚ) : Int :=
  if q - ⌊q⌋ < 1 / 2 then ⌊q⌋
  else if 1 / 2 < q - ⌊q⌋ then ⌊q⌋ + 1
  else if Even ⌊q⌋ then ⌊q⌋ else ⌊q⌋ + 1

/-- Exponent of the binary32 unit in the last place at magnitude
exponent `e`: 24-bit significands in the normal range, a fixed ulp of
2^-149 below it (subnormals). -/
def ulpExp (e : Int) : Int :=
  max (e - 23) (-149)

/-- Nearest binary32 value to a positive rational (round to nearest,
ties to even). Every binary32 value is a rational, so the result type
is exact. Finite range only: the values of this program stay below
2^40, far under the binary32 overflow threshold 2^128. -/
def roundPos (x : ℚ) : ℚ :=
  let p := ulpExp (Int.log 2 x)
  (rne (x / 2 ^ p) : ℚ) * 2 ^ p

/-- Nearest binary32 value to a rational (round to nearest, ties to
even; IEEE negation symmetry). -/
def roundF32 (x : ℚ) : ℚ :=
  if x = 0 then 0
  else if 0 < x then roundPos x
  else -roundPos (-x)

/-- Go `float32(v)` conversion of an integer: correctly rounded. -/
def float32OfInt (v : Int) : ℚ :=
  roundF32 (v : ℚ)

/-- Go float32 division: the correctly rounded quotient of two binary32
values. -/
def float32Div (x y : ℚ) : ℚ :=
  roundF32 (x / y)

/-- Go float32 multiplication: the correctly rounded product of two
binary32 values. -/
def float32Mul (x y : ℚ) : ℚ :=
  roundF32 (x * y)

namespace network

/-- Member record of the external hashicorp/memberlist library: the
fields of `memberlist.Node` that the repository reads (Name, Addr,
Port). -/
structure MemberNode where
  name : String
  addr : String
  port : Int
deriving Repr, DecidableEq

/-- State of the external hashicorp/memberlist gossip instance as the
repository uses it: a member view plus an alive flag cleared by
`Shutdown` (which the library documents as idempotent). -/
structure Memberlist where
  members : List MemberNode
  alive : Bool
deriving Repr, DecidableEq

/-- Memberlist.Shutdown of the external library: stops the instance;
calling it again on a stopped instance is a no-op. -/
def Memberlist.Shutdown (m : Memberlist) : Memberlist :=
  { m with alive := false }

/-- P2PNetwork from the network package. The `memberlist` pointer is
`none` until `Start` succeeds (Go nil pointer). Logger and metrics
collector are side-effect-only collaborators and carry no state the
verified operations read. -/
structure P2PNetwork where
  memberlist : Option Memberlist
  nodeID : String
  bindPort : Int
  gossipPort : Int
deriving Repr, DecidableEq

/-- Go `strings.ContainsAny(s, chars)`: true when `s` contains any
character of `chars`. -/
def containsAny (s chars : String) : Bool :=
  s.data.any (fun c => chars.data.contains c)

/-- NewP2PNetwork from the network package: validates the node ID
(non-empty, no newline/carriage-return/tab) and the two ports
(`1 ≤ p ≤ 65535`, bind ≠ gossip), then returns a network with a nil
memberlist; each failed check returns the corresponding error. -/
def NewP2PNetwork (nodeID : String) (bindPort gossipPort : Int) :
    Except String P2PNetwork :=
  if nodeID = "" then
    .error "node ID cannot be empty"
  else if containsAny nodeID "\n\r\t" then
    .error "node ID cannot contain newlines or tabs"
  else if bindPort ≤ 0 ∨ bindPort > 65535 then
    .error ("invalid bind port: " ++ toString bindPort)
  else if gossipPort ≤ 0 ∨ gossipPort > 65535 then
    .error ("invalid gossip port: " ++ toString gossipPort)
  else if bindPort = gossipPort then
    .error ("bind port and gossip port cannot be the same: " ++ toString bindPort)
  else
    .ok { memberlist := none, nodeID := nodeID,
          bindPort := bindPort, gossipPort := gossipPort }

/-- P2PNetwork.GetNodes: when the memberlist is nil the empty list;
otherwise one `models.Node` per member with Status Online and LastSeen
`time.Now()` (the instant `now`); the Resources field is omitted in the
Go literal, hence the zero value. -/
def P2PNetwork.GetNodes (n : P2PNetwork) (now : Int) : List models.Node :=
  match n.memberlist with
  | none => []
  | some ml =>
      ml.members.map (fun member =>
        { id := member.name
          address := member.addr
          port := member.port
          resources := models.ResourceInfo.zero
          status := models.NodeStatus.online
          lastSeen := now })

/-- P2PNetwork.Stop: `if n.memberlist != nil { n.memberlist.Shutdown() }`.
The pointer itself is not cleared by the Go code. -/
def P2PNetwork.Stop (n : P2PNetwork) : P2PNetwork :=
  match n.memberlist with
  | none => n
  | some ml => { n with memberlist := some ml.Shutdown }

/-- Conversion the three gRPC servers apply to each `models.Node` when
building a `pb.NodeInfo` (the inline loop shared by DiscoverNodes,
RegisterWithCluster, GetClusterInfo and GetNodeList); unlike
`ResourceInfo.ToProto` it copies UsedLayers. -/
def nodeInfoOfNode (node : models.Node) : pb.NodeInfo :=
  { nodeId := node.id
    address := node.address
    port := node.port
    resources :=
      { cpuCores := node.resources.cpuCores
        memoryMb := node.resources.memoryMB
        gpus := node.resources.gpus.map (fun gpu =>
          { name := gpu.name, memoryMb := gpu.memoryMB, uuid := gpu.uuid })
        maxLayers := node.resources.maxLayers
        usedLayers := node.resources.usedLayers }
    status := node.status.toWire
    lastSeen := node.lastSeen }

/-- DiscoveryServer.DiscoverNodes, parameterized by the membership
snapshot `nodes` (= `d.network.GetNodes()`): keeps exactly the nodes
whose ID does not occur in the request's KnownNodes and converts them to
wire form. -/
def DiscoverNodes (nodes : List models.Node) (knownNodes : List String) :
    pb.DiscoveryResponse :=
  let discovered :=
    (nodes.filter (fun node => !(knownNodes.contains node.id))).map nodeInfoOfNode
  { discoveredNodes := discovered
    success := true
    message := "Discovered " ++ toString discovered.length ++ " new nodes" }

/-- Accumulator of the aggregation loop in DiscoveryServer.GetClusterInfo
(totalCPU, totalMemory, totalGPUs, totalLayers, allocatedLayers). -/
structure ClusterTotals where
  totalCPU : Int
  totalMemory : Int
  totalGPUs : Int
  totalLayers : Int
  allocatedLayers : Int
deriving Repr, DecidableEq

/-- One iteration of the GetClusterInfo aggregation loop. The Go
accumulators are `int64` (totalCPU, totalMemory) and `int32` (totalGPUs,
totalLayers, allocatedLayers), so each `+=` wraps at the corresponding
width; `int32(len(...))` folded into the totalGPUs sum is absorbed by
the outer wrap, since Go's conversion is reduction mod 2^32. -/
def ClusterTotals.step (acc : ClusterTotals) (node : models.Node) : ClusterTotals :=
  { totalCPU := wrap64 (acc.totalCPU + node.resources.cpuCores)
    totalMemory := wrap64 (acc.totalMemory + node.resources.memoryMB)
    totalGPUs := wrap32 (acc.totalGPUs + node.resources.gpus.length)
    totalLayers := wrap32 (acc.totalLayers + node.resources.maxLayers)
    allocatedLayers := wrap32 (acc.allocatedLayers + node.resources.usedLayers) }

/-- DiscoveryServer.GetClusterInfo's metrics, parameterized by the
membership snapshot: folds the (width-wrapping) aggregation loop over
the nodes, counts healthy nodes with an int32 counter over those with
Status Online, takes availableMemory = totalMemory (the source's
simplified calculation), and computes utilization as the Go float32
evaluation `float32(allocatedLayers) / float32(totalLayers) * 100.0`
when `totalLayers > 0`, else 0; each float32 operation is correctly
rounded, and every binary32 value is represented exactly in ℚ. -/
def GetClusterInfoMetrics (nodes : List models.Node) : pb.ClusterMetrics :=
  let totals := nodes.foldl ClusterTotals.step
    { totalCPU := 0, totalMemory := 0, totalGPUs := 0,
      totalLayers := 0, allocatedLayers := 0 }
  let healthyNodes : Int :=
    wrap32 (nodes.filter (fun node => node.status == models.NodeStatus.online)).length
  let utilization : ℚ :=
    if totals.totalLayers > 0 then
      float32Mul (float32Div (float32OfInt totals.allocatedLayers)
        (float32OfInt totals.totalLayers)) 100
    else 0
  { totalNodes := wrap32 nodes.length
    healthyNodes := healthyNodes
    totalMemoryMb := totals.totalMemory
    availableMemoryMb := totals.totalMemory
    totalGpus := totals.totalGPUs
    totalLayers := totals.totalLayers
    allocatedLayers := totals.allocatedLayers
    clusterUtilization := utilization }

/-- TUIServer.ExecuteCommand's dispatch on the request's Command string:
the Go switch over "status", "ping" and the default arm. The Go method
always returns a response and a nil error, so the model is a total
function into `pb.CommandResponse`. -/
def ExecuteCommand (command : String) : pb.CommandResponse :=
  if command = "status" then
    { success := true, output := "Cluster is running normally",
      error := "", exitCode := 0 }
  else if command = "ping" then
    { success := true, output := "pong", error := "", exitCode := 0 }
  else
    { success := false, output := "",
      error := "Unknown command: " ++ command, exitCode := 1 }

end network

namespace agent

/-- Bounded Go channel of `models.ResourceInfo` values: a capacity and
the buffered contents, oldest first. -/
structure ResourceChan where
  cap : Nat
  buf : List models.ResourceInfo
deriving Repr, DecidableEq

/-- Go non-blocking send (`select { case ch <- v: default: }`): appends
to the buffer when it is below capacity, otherwise leaves the channel
unchanged and drops the value. -/
def ResourceChan.trySend (ch : ResourceChan) (v : models.ResourceInfo) :
    ResourceChan :=
  if ch.buf.length < ch.cap then { ch with buf := ch.buf ++ [v] } else ch

/-- Broadcaster from the agent package: the resource snapshot, the
broadcaster-local node registry and the subscribed listener channels.
The mutex and the nil-safe metrics collector carry no state the
verified operations read. -/
structure Broadcaster where
  resources : models.ResourceInfo
  nodes : List models.Node
  listeners : List ResourceChan
deriving Repr, DecidableEq

/-- Broadcaster.Subscribe: appends the channel to the listener list. -/
def Broadcaster.Subscribe (b : Broadcaster) (ch : ResourceChan) : Broadcaster :=
  { b with listeners := b.listeners ++ [ch] }

/-- Broadcaster.UpdateResources: replaces the stored snapshot, then
performs a non-blocking send of a copy of the new snapshot to every
listener (a full channel keeps its contents and the update is dropped
for that subscriber). The Go method returns nothing and cannot fail;
the model is a total state transformer. -/
def Broadcaster.UpdateResources (b : Broadcaster)
    (resources : models.ResourceInfo) : Broadcaster :=
  { b with
    resources := resources
    listeners := b.listeners.map (fun ch => ch.trySend resources) }

/-- Broadcaster.GetResources: returns the current snapshot. -/
def Broadcaster.GetResources (b : Broadcaster) : models.ResourceInfo :=
  b.resources

end agent

namespace tui

/-- Client from internal/tui/client.go as the discovery layer holds it:
the server address and whether `Close` has been called on its
connection. -/
structure Client where
  serverAddr : String
  closed : Bool
deriving Repr, DecidableEq

/-- Client.Close: closes the underlying connection (idempotent at this
level of the model; the Go method returns nil when there is no
connection). -/
def Client.Close (c : Client) : Client :=
  { c with closed := true }

/-- AgentDiscovery from internal/tui/discovery.go: the address-keyed
client and node registries plus the startup configuration. The mutex,
logger and UI-update channel carry no state the verified operations
read. -/
structure AgentDiscovery where
  clients : List (String × Client)
  nodes : List (String × models.Node)
  seedNodes : List String
  dockerMode : Bool
  k8sNamespace : String
deriving Repr, DecidableEq

/-- AgentDiscovery.Stop: closes every registered client, then resets
both registries to fresh empty maps. -/
def AgentDiscovery.Stop (d : AgentDiscovery) : AgentDiscovery :=
  let _ := d.clients.map (fun entry => entry.2.Close)
  { d with clients := [], nodes := [] }

end tui

section ConcreteInputs

/-- Sample node used by concrete witnesses. -/
def sampleNode (i : String) (maxLayers usedLayers : Int)
    (status : models.NodeStatus) : models.Node :=
  { id := i
    address := "127.0.0.1"
    port := 8080
    resources := { cpuCores := 4, memoryMB := 8192, gpus := [],
                   maxLayers := maxLayers, usedLayers := usedLayers }
    status := status
    lastSeen := 0 }

/-- Boolean success of NewP2PNetwork: true iff construction returns a
network rather than a validation error. -/
def createSucceeds (nodeID : String) (bindPort gossipPort : Int) : Bool :=
  match network.NewP2PNetwork nodeID bindPort gossipPort with
  | .ok _ => true
  | .error _ => false

/-- Modelled from the spec: a control character in the spec's sense of
"control-character-free" (ASCII C0 controls and DEL). Used only to state
the spec's validation predicate for comparison with the source. -/
def isControlChar (c : Char) : Bool :=
  c.val < 32 || c.val == 127

/-- Modelled from the spec: the validation predicate of the claim's
wording — nodeId non-empty and control-character-free, both ports in
[1, 65535], and the two ports distinct. -/
def specCreateOk (nodeID : String) (bindPort gossipPort : Int) : Bool :=
  decide (nodeID ≠ "") &&
  nodeID.data.all (fun c => ! isControlChar c) &&
  decide (1 ≤ bindPort) && decide (bindPort ≤ 65535) &&
  decide (1 ≤ gossipPort) && decide (gossipPort ≤ 65535) &&
  decide (bindPort ≠ gossipPort)

/-- Cluster of the spec's worked example: one Online node with
maxLayers 32 / usedLayers 16 and one Online node with maxLayers 64 /
usedLayers 0. -/
def clusterExample : List models.Node :=
  [sampleNode "a" 32 16 models.NodeStatus.online,
   sampleNode "b" 64 0 models.NodeStatus.online]

/-- Two Online nodes whose maxLayers values are legal int32 values but
whose sum, 2^31, overflows the int32 accumulator of GetClusterInfo. -/
def wrapExample : List models.Node :=
  [sampleNode "a" 2147483647 0 models.NodeStatus.online,
   sampleNode "b" 1 0 models.NodeStatus.online]

/-- Full bounded channel (capacity 1, one buffered value) used by the
C6 witness. -/
def fullChan : agent.ResourceChan :=
  { cap := 1, buf := [models.ResourceInfo.zero] }

/-- Resource snapshot pushed by the C6 witness. -/
def sampleResources : models.ResourceInfo :=
  { cpuCores := 8, memoryMB := 16384, gpus := [], maxLayers := 20,
    usedLayers := 5 }

/-- Broadcaster with one full subscriber channel, for the C6 witness. -/
def sampleBroadcaster : agent.Broadcaster :=
  { resources := models.ResourceInfo.zero, nodes := [],
    listeners := [fullChan] }

/-- Membership state with one gossip member, for the C10 witness. -/
def sampleNet : network.P2PNetwork :=
  { memberlist :=
      some { members := [{ name := "a", addr := "10.0.0.1", port := 7946 }],
             alive := true },
    nodeID := "n1", bindPort := 8080, gossipPort := 7946 }

/-- Node that sampleNet's GetNodes yields at instant 5, for the C10
witness. -/
def sampleGossipNode : models.Node :=
  { id := "a", address := "10.0.0.1", port := 7946,
    resources := models.ResourceInfo.zero,
    status := models.NodeStatus.online, lastSeen := 5 }

end ConcreteInputs

/-- C2: for every Node and every instant `now`, `IsHealthy` is true iff
the status is Online and `now - lastSeen < 5` minutes; and a node whose
lastSeen lies 10 minutes in the past is never healthy, whatever its
status. -/
theorem node_isHealthy_iff (n : models.Node) (now : Int) :
    (models.Node.IsHealthy now n = true ↔
      (n.status = models.NodeStatus.online ∧
        now - n.lastSeen < models.fiveMinutes)) ∧
    (n.lastSeen = now - models.tenMinutes →
      models.Node.IsHealthy now n = false) := by
  constructor
  · simp [models.Node.IsHealthy]
  · intro h
    have hd : now - n.lastSeen = models.tenMinutes := by
      rw [h]; ring
    simp only [models.Node.IsHealthy, hd, models.tenMinutes, models.fiveMinutes]
    simp

/-- Witness for C2: an Online node last seen 10 minutes ago (at
`now = 600s` in nanoseconds, lastSeen = 0) is not healthy. -/
theorem node_isHealthy_iff_witness :
    models.Node.IsHealthy 600000000000
      (sampleNode "n1" 10 0 models.NodeStatus.online) = false :=
  (node_isHealthy_iff (sampleNode "n1" 10 0 models.NodeStatus.online)
    600000000000).2 (by decide)

/-- C7: decoding the wire encoding of any ResourceInfo restores the core
fields exactly: cpuCores, memoryMB, the GPU list (same length, order and
per-GPU name/memory/UUID) and maxLayers. -/
theorem resourceInfo_roundTrip (r : models.ResourceInfo) :
    (models.ResourceInfoFromProto r.ToProto).cpuCores = r.cpuCores ∧
    (models.ResourceInfoFromProto r.ToProto).memoryMB = r.memoryMB ∧
    (models.ResourceInfoFromProto r.ToProto).gpus = r.gpus ∧
    (models.ResourceInfoFromProto r.ToProto).maxLayers = r.maxLayers := by
  refine ⟨rfl, rfl, ?_, rfl⟩
  simp only [models.ResourceInfoFromProto, models.ResourceInfo.ToProto,
    List.map_map]
  exact List.map_id r.gpus

/-- C9: the wire encoding omits usedLayers (the protobuf field stays at
its zero value), so the round-trip always yields usedLayers = 0,
whatever the input's usedLayers was. -/
theorem resourceInfo_roundTrip_usedLayers (r : models.ResourceInfo) :
    r.ToProto.usedLayers = 0 ∧
    (models.ResourceInfoFromProto r.ToProto).usedLayers = 0 :=
  ⟨rfl, rfl⟩

/-- C5: ExecuteCommand dispatches a closed set: "status" succeeds with
the fixed message and exit code 0, "ping" succeeds with output "pong"
and exit code 0, and every other command fails with a non-empty
unknown-command error and exit code 1 (the handler is total: no
RPC-level error). -/
theorem executeCommand_dispatch :
    network.ExecuteCommand "status" =
      { success := true, output := "Cluster is running normally",
        error := "", exitCode := 0 } ∧
    network.ExecuteCommand "ping" =
      { success := true, output := "pong", error := "", exitCode := 0 } ∧
    ∀ command : String, command ≠ "status" → command ≠ "ping" →
      (network.ExecuteCommand command).success = false ∧
      (network.ExecuteCommand command).error ≠ "" ∧
      (network.ExecuteCommand command).exitCode = 1 := by
  refine ⟨rfl, rfl, fun command h1 h2 => ?_⟩
  unfold network.ExecuteCommand
  rw [if_neg h1, if_neg h2]
  refine ⟨rfl, ?_, rfl⟩
  intro h
  have hl := congrArg String.length h
  simp [String.length_append] at hl
  exact absurd hl.1 (by decide)

/-- Witness for C5: the unknown command "bogus" fails with a non-empty
error and exit code 1. -/
theorem executeCommand_dispatch_witness :
    (network.ExecuteCommand "bogus").success = false ∧
    (network.ExecuteCommand "bogus").error ≠ "" ∧
    (network.ExecuteCommand "bogus").exitCode = 1 :=
  executeCommand_dispatch.2.2 "bogus" (by decide) (by decide)

/-- C8: Stop is idempotent on both the membership layer and the console
discovery layer: two consecutive stops leave the same state as one, and
stopping a membership instance that was never started (nil memberlist)
changes nothing. Both models are total functions, so no panic or error
is possible. -/
theorem stop_idempotent (n : network.P2PNetwork) (d : tui.AgentDiscovery) :
    (n.Stop.Stop = n.Stop ∧ d.Stop.Stop = d.Stop) ∧
    (n.memberlist = none → n.Stop = n) := by
  refine ⟨⟨?_, rfl⟩, fun h => ?_⟩
  · obtain ⟨ml, id, bp, gp⟩ := n
    cases ml <;> rfl
  · simp [network.P2PNetwork.Stop, h]

/-- Witness for C8: stopping a never-started network (nil memberlist) is
the identity, and the doubled stop agrees with the single stop there. -/
theorem stop_idempotent_witness :
    (network.P2PNetwork.Stop
      { memberlist := none, nodeID := "n1", bindPort := 8080,
        gossipPort := 7946 }) =
      { memberlist := none, nodeID := "n1", bindPort := 8080,
        gossipPort := 7946 } :=
  (stop_idempotent
    { memberlist := none, nodeID := "n1", bindPort := 8080,
      gossipPort := 7946 }
    { clients := [], nodes := [], seedNodes := [], dockerMode := false,
      k8sNamespace := "" }).2 rfl

/-- C1 counterexample: for the triple ("\x01", 1, 2) the claim's iff
fails — the source accepts the node ID "\x01" (it rejects only newline,
carriage return and tab), yet "\x01" is a control character, so the
claim's right-hand side is false. -/
theorem newP2PNetwork_spec_counterexample :
    ¬ (createSucceeds "\x01" 1 2 = true ↔ specCreateOk "\x01" 1 2 = true) := by
  decide

/-- C1 amended: membership creation succeeds iff the node ID is
non-empty and contains none of newline, carriage return or tab, both
ports lie in [1, 65535], and the bind and gossip ports differ; in every
other case it returns a validation error and no network. -/
theorem newP2PNetwork_validation (nodeID : String) (bindPort gossipPort : Int) :
    createSucceeds nodeID bindPort gossipPort = true ↔
      (nodeID ≠ "" ∧ network.containsAny nodeID "\n\r\t" = false ∧
        1 ≤ bindPort ∧ bindPort ≤ 65535 ∧
        1 ≤ gossipPort ∧ gossipPort ≤ 65535 ∧
        bindPort ≠ gossipPort) := by
  unfold createSucceeds network.NewP2PNetwork
  split_ifs with h1 h2 h3 h4 h5 <;>
    simp_all <;>
    omega

/-- Witness for C1 amended: the triple ("node1", 8080, 7946) validates
and construction succeeds. -/
theorem newP2PNetwork_validation_witness :
    createSucceeds "node1" 8080 7946 = true :=
  (newP2PNetwork_validation "node1" 8080 7946).mpr (by decide)

/-- C3: DiscoverNodes computes the set difference against the request's
known IDs: no returned node's ID occurs in knownIds, and every node of
the membership snapshot whose ID does not occur in knownIds appears
(in wire form) in the response. -/
theorem discoverNodes_set_difference (nodes : List models.Node)
    (knownIds : List String) :
    (∀ info ∈ (network.DiscoverNodes nodes knownIds).discoveredNodes,
        knownIds.contains info.nodeId = false) ∧
    (∀ node ∈ nodes, knownIds.contains node.id = false →
        network.nodeInfoOfNode node ∈
          (network.DiscoverNodes nodes knownIds).discoveredNodes) := by
  constructor
  · intro info hinfo
    simp only [network.DiscoverNodes, List.mem_map, List.mem_filter] at hinfo
    obtain ⟨node, ⟨_, hnk⟩, rfl⟩ := hinfo
    simpa [network.nodeInfoOfNode] using hnk
  · intro node hmem hnk
    simp only [network.DiscoverNodes, List.mem_map]
    exact ⟨node, List.mem_filter.mpr ⟨hmem, by simpa using hnk⟩, rfl⟩

/-- Witness for C3: with membership {a, b} and knownIds = [a], node b is
returned and its ID is not among the known IDs. -/
theorem discoverNodes_set_difference_witness :
    network.nodeInfoOfNode (sampleNode "b" 0 0 models.NodeStatus.online) ∈
      (network.DiscoverNodes
        [sampleNode "a" 0 0 models.NodeStatus.online,
         sampleNode "b" 0 0 models.NodeStatus.online]
        ["a"]).discoveredNodes :=
  (discoverNodes_set_difference
    [sampleNode "a" 0 0 models.NodeStatus.online,
     sampleNode "b" 0 0 models.NodeStatus.online] ["a"]).2
    (sampleNode "b" 0 0 models.NodeStatus.online) (by simp) (by decide)

/-- Reduction wrap32 is the identity on the int32 range. -/
theorem wrap32_eq_self {x : Int} (h1 : -2147483648 ≤ x) (h2 : x < 2147483648) :
    wrap32 x = x := by
  unfold wrap32; omega

/-- An int32-wrapping running sum whose partial sums never leave the
int32 range computes the exact sum. -/
theorem foldl_wrap32_add (xs : List Int) (a : Int)
    (h : ∀ k : Nat, -2147483648 ≤ a + (xs.take k).sum ∧
          a + (xs.take k).sum < 2147483648) :
    xs.foldl (fun s x => wrap32 (s + x)) a = a + xs.sum := by
  induction xs generalizing a with
  | nil => simp
  | cons x xs ih =>
      have hx := h 1
      simp only [List.take_succ_cons, List.take_zero, List.sum_cons,
        List.sum_nil, add_zero] at hx
      have hw : wrap32 (a + x) = a + x := wrap32_eq_self hx.1 hx.2
      simp only [List.foldl_cons, hw]
      rw [ih (a + x) ?_]
      · simp [List.sum_cons]; ring
      · intro k
        have hk := h (k + 1)
        simp only [List.take_succ_cons, List.sum_cons] at hk
        constructor <;> [linarith [hk.1]; linarith [hk.2]]

/-- The totalLayers component of the GetClusterInfo fold is the
int32-wrapping running sum of the nodes' maxLayers. -/
theorem clusterTotals_totalLayers (nodes : List models.Node)
    (acc : network.ClusterTotals) :
    (nodes.foldl network.ClusterTotals.step acc).totalLayers =
      (nodes.map (fun n => n.resources.maxLayers)).foldl
        (fun s x => wrap32 (s + x)) acc.totalLayers := by
  induction nodes generalizing acc with
  | nil => rfl
  | cons n ns ih =>
      simp only [List.foldl_cons, List.map_cons, ih, network.ClusterTotals.step]

/-- The allocatedLayers component of the GetClusterInfo fold is the
int32-wrapping running sum of the nodes' usedLayers. -/
theorem clusterTotals_allocatedLayers (nodes : List models.Node)
    (acc : network.ClusterTotals) :
    (nodes.foldl network.ClusterTotals.step acc).allocatedLayers =
      (nodes.map (fun n => n.resources.usedLayers)).foldl
        (fun s x => wrap32 (s + x)) acc.allocatedLayers := by
  induction nodes generalizing acc with
  | nil => rfl
  | cons n ns ih =>
      simp only [List.foldl_cons, List.map_cons, ih, network.ClusterTotals.step]

/-- Characterization of the binade: a sandwich 2^e ≤ x < 2^(e+1)
determines Int.log 2 x. -/
theorem int_log2_eq {x : ℚ} {e : ℤ} (hx : 0 < x)
    (h1 : (2:ℚ) ^ e ≤ x) (h2 : x < (2:ℚ) ^ (e+1)) :
    Int.log 2 x = e := by
  have hb : 1 < (2:ℕ) := one_lt_two
  have ha := (Int.zpow_le_iff_le_log hb hx).mp (by push_cast; exact h1)
  have hc := (Int.lt_zpow_iff_log_lt hb hx).mp (by push_cast; exact h2)
  omega

/-- Evaluation of round-to-nearest-even below the midpoint. -/
theorem rne_eval {q : ℚ} {f : Int} (hf : ⌊q⌋ = f)
    (h : q - f < 1/2) : rne q = f := by
  unfold rne
  rw [hf, if_pos h]

/-- Evaluation of round-to-nearest-even above the midpoint. -/
theorem rne_eval_up {q : ℚ} {f : Int} (hf : ⌊q⌋ = f)
    (h : 1/2 < q - f) : rne q = f + 1 := by
  unfold rne
  rw [hf, if_neg (by linarith), if_pos h]

/-- Evaluation of roundPos at a positive rational with known binade
(normal range) and known rounded significand. -/
theorem roundPos_eval {x : ℚ} {e : Int} {m : Int}
    (hx : 0 < x) (h1 : (2:ℚ) ^ e ≤ x) (h2 : x < (2:ℚ) ^ (e+1))
    (he : -126 ≤ e)
    (hm : rne (x / 2 ^ (e - 23)) = m) :
    roundPos x = (m : ℚ) * 2 ^ (e - 23) := by
  unfold roundPos
  rw [int_log2_eq hx h1 h2]
  have hu : ulpExp e = e - 23 := by unfold ulpExp; omega
  rw [hu]
  simp only [hm]

/-- Evaluation of roundF32 at a positive rational with known binade
(normal range) and known rounded significand. -/
theorem roundF32_eval {x : ℚ} {e : Int} {m : Int}
    (hx : 0 < x) (h1 : (2:ℚ) ^ e ≤ x) (h2 : x < (2:ℚ) ^ (e+1))
    (he : -126 ≤ e)
    (hm : rne (x / 2 ^ (e - 23)) = m) :
    roundF32 x = (m : ℚ) * 2 ^ (e - 23) := by
  unfold roundF32
  rw [if_neg (by linarith), if_pos hx, roundPos_eval hx h1 h2 he hm]

/-- Go float32(16) is exact. -/
theorem float32OfInt_sixteen : float32OfInt 16 = 16 := by
  have hc : (((16:Int)):ℚ) = (16:ℚ) := by norm_num
  have h := roundF32_eval (x := (16:ℚ)) (e := 4) (m := 8388608)
    (by norm_num) (by norm_num) (by norm_num) (by norm_num)
    (rne_eval (q := (16:ℚ) / 2 ^ ((4:ℤ) - 23)) (f := 8388608)
      (by norm_num [Int.floor_eq_iff]) (by norm_num))
  unfold float32OfInt
  rw [hc, h]; norm_num

/-- Go float32(96) is exact. -/
theorem float32OfInt_ninetySix : float32OfInt 96 = 96 := by
  have hc : (((96:Int)):ℚ) = (96:ℚ) := by norm_num
  have h := roundF32_eval (x := (96:ℚ)) (e := 6) (m := 12582912)
    (by norm_num) (by norm_num) (by norm_num) (by norm_num)
    (rne_eval (q := (96:ℚ) / 2 ^ ((6:ℤ) - 23)) (f := 12582912)
      (by norm_num [Int.floor_eq_iff]) (by norm_num))
  unfold float32OfInt
  rw [hc, h]; norm_num

/-- Go float32 division 16/96: the quotient 1/6 is not a binary
fraction; correct rounding gives 11184811 · 2^-26. -/
theorem float32Div_example : float32Div 16 96 = 11184811 / 67108864 := by
  have hq : (16:ℚ) / 96 = 1/6 := by norm_num
  have h := roundF32_eval (x := (1:ℚ)/6) (e := -3) (m := 11184811)
    (by norm_num) (by norm_num) (by norm_num) (by norm_num)
    (rne_eval_up (q := ((1:ℚ)/6) / 2 ^ ((-3:ℤ) - 23)) (f := 11184810)
      (by norm_num [Int.floor_eq_iff]) (by norm_num))
  unfold float32Div
  rw [hq, h]; norm_num

/-- Go float32 multiplication of the rounded quotient by 100: correct
rounding gives 8738134 · 2^-19 = 4369067/262144 ≈ 16.666668. -/
theorem float32Mul_example :
    float32Mul (11184811 / 67108864) 100 = 4369067 / 262144 := by
  have hq : (11184811:ℚ) / 67108864 * 100 = 1118481100/67108864 := by norm_num
  have h := roundF32_eval (x := (1118481100:ℚ)/67108864) (e := 4) (m := 8738134)
    (by norm_num) (by norm_num) (by norm_num) (by norm_num)
    (rne_eval_up (q := ((1118481100:ℚ)/67108864) / 2 ^ ((4:ℤ) - 23)) (f := 8738133)
      (by norm_num [Int.floor_eq_iff]) (by norm_num))
  unfold float32Mul
  rw [hq, h]; norm_num

/-- Utilization GetClusterInfo computes on the spec example: the
float32 evaluation of 16/96*100, namely 4369067/262144 ≈ 16.666668
(not the exact rational 50/3). -/
theorem clusterExample_utilization :
    (network.GetClusterInfoMetrics clusterExample).clusterUtilization =
      4369067 / 262144 := by
  have htot : clusterExample.foldl network.ClusterTotals.step
      { totalCPU := 0, totalMemory := 0, totalGPUs := 0,
        totalLayers := 0, allocatedLayers := 0 } =
      { totalCPU := 8, totalMemory := 16384, totalGPUs := 0,
        totalLayers := 96, allocatedLayers := 16 } := by decide
  simp only [network.GetClusterInfoMetrics, htot]
  rw [if_pos (by norm_num)]
  rw [float32OfInt_sixteen, float32OfInt_ninetySix, float32Div_example,
    float32Mul_example]

/-- C4 counterexample: the aggregation runs on wrapping int32
accumulators and float32 arithmetic, not exact integers and rationals.
On wrapExample (maxLayers 2^31-1 and 1) the accumulated totalLayers
wraps to -2^31, which differs from the mathematical sum 2^31, and the
utilization branch reports 0; and on the spec's own example cluster the
float32 utilization differs from the exact value 16/96*100. -/
theorem getClusterInfo_aggregation_counterexample :
    ((network.GetClusterInfoMetrics wrapExample).totalLayers ≠
        (wrapExample.map (fun n => n.resources.maxLayers)).sum ∧
      (network.GetClusterInfoMetrics wrapExample).totalLayers = -2147483648 ∧
      (network.GetClusterInfoMetrics wrapExample).clusterUtilization = 0) ∧
    (network.GetClusterInfoMetrics clusterExample).clusterUtilization ≠
      16 / 96 * 100 := by
  refine ⟨by decide, ?_⟩
  rw [clusterExample_utilization]
  norm_num

/-- C4 (amended): on every membership snapshot whose int32 running
sums of maxLayers and usedLayers stay in range and whose node count is
below 2^31, GetClusterInfo's metrics satisfy the aggregation spec —
totalLayers is the sum of maxLayers, allocatedLayers the sum of
usedLayers, healthyNodes counts exactly the Online nodes, and the
utilization is the float32 evaluation (correct rounding at each step)
of allocatedLayers / totalLayers * 100 when totalLayers is positive,
and 0 when it is zero. -/
theorem getClusterInfo_aggregation (nodes : List models.Node)
    (hm : ∀ k : Nat,
      -2147483648 ≤ ((nodes.take k).map (fun n => n.resources.maxLayers)).sum ∧
      ((nodes.take k).map (fun n => n.resources.maxLayers)).sum < 2147483648)
    (hu : ∀ k : Nat,
      -2147483648 ≤ ((nodes.take k).map (fun n => n.resources.usedLayers)).sum ∧
      ((nodes.take k).map (fun n => n.resources.usedLayers)).sum < 2147483648)
    (hn : (nodes.length : Int) < 2147483648) :
    (network.GetClusterInfoMetrics nodes).totalLayers =
        (nodes.map (fun n => n.resources.maxLayers)).sum ∧
    (network.GetClusterInfoMetrics nodes).allocatedLayers =
        (nodes.map (fun n => n.resources.usedLayers)).sum ∧
    (network.GetClusterInfoMetrics nodes).healthyNodes =
        ((nodes.filter
            (fun n => n.status == models.NodeStatus.online)).length : Int) ∧
    ((network.GetClusterInfoMetrics nodes).totalLayers > 0 →
        (network.GetClusterInfoMetrics nodes).clusterUtilization =
          float32Mul (float32Div
            (float32OfInt (network.GetClusterInfoMetrics nodes).allocatedLayers)
            (float32OfInt (network.GetClusterInfoMetrics nodes).totalLayers))
            100) ∧
    ((network.GetClusterInfoMetrics nodes).totalLayers = 0 →
        (network.GetClusterInfoMetrics nodes).clusterUtilization = 0) := by
  have hTL : (network.GetClusterInfoMetrics nodes).totalLayers =
      (nodes.map (fun n => n.resources.maxLayers)).sum := by
    have h0 := foldl_wrap32_add (nodes.map (fun n => n.resources.maxLayers)) 0
      (fun k => by simpa [← List.map_take] using hm k)
    simp only [network.GetClusterInfoMetrics]
    rw [clusterTotals_totalLayers]
    simpa using h0
  have hAL : (network.GetClusterInfoMetrics nodes).allocatedLayers =
      (nodes.map (fun n => n.resources.usedLayers)).sum := by
    have h0 := foldl_wrap32_add (nodes.map (fun n => n.resources.usedLayers)) 0
      (fun k => by simpa [← List.map_take] using hu k)
    simp only [network.GetClusterInfoMetrics]
    rw [clusterTotals_allocatedLayers]
    simpa using h0
  have hHN : (network.GetClusterInfoMetrics nodes).healthyNodes =
      ((nodes.filter
          (fun n => n.status == models.NodeStatus.online)).length : Int) := by
    have hle := List.length_filter_le
      (fun n => n.status == models.NodeStatus.online) nodes
    simp only [network.GetClusterInfoMetrics]
    exact wrap32_eq_self (by omega) (by omega)
  refine ⟨hTL, hAL, hHN, ?_, ?_⟩
  · intro hpos
    simp only [network.GetClusterInfoMetrics] at hpos ⊢
    rw [if_pos hpos]
  · intro hzero
    simp only [network.GetClusterInfoMetrics] at hzero ⊢
    rw [if_neg (by omega)]

/-- Witness for C4: on the example cluster the overflow hypotheses
hold, totalLayers = 96, allocatedLayers = 16, both Online nodes are
counted healthy, and the utilization is the float32 value
4369067/262144 ≈ 16.666668, within 0.01 of 16/96*100 ≈ 16.67. -/
theorem getClusterInfo_aggregation_witness :
    (network.GetClusterInfoMetrics clusterExample).totalLayers = 96 ∧
    (network.GetClusterInfoMetrics clusterExample).allocatedLayers = 16 ∧
    (network.GetClusterInfoMetrics clusterExample).healthyNodes = 2 ∧
    (network.GetClusterInfoMetrics clusterExample).clusterUtilization =
      4369067 / 262144 ∧
    |(network.GetClusterInfoMetrics clusterExample).clusterUtilization -
      16 / 96 * 100| < 1 / 100 := by
  obtain ⟨hTL, hAL, hHN, hUt, -⟩ := getClusterInfo_aggregation clusterExample
    (by
      intro k
      rcases k with _ | _ | k
      · simp
      · norm_num [clusterExample, sampleNode]
      · rw [List.take_of_length_le (by simp [clusterExample])]
        norm_num [clusterExample, sampleNode])
    (by
      intro k
      rcases k with _ | _ | k
      · simp
      · norm_num [clusterExample, sampleNode]
      · rw [List.take_of_length_le (by simp [clusterExample])]
        norm_num [clusterExample, sampleNode])
    (by norm_num [clusterExample])
  have hTL96 : (network.GetClusterInfoMetrics clusterExample).totalLayers = 96 := by
    rw [hTL]; decide
  have hAL16 : (network.GetClusterInfoMetrics clusterExample).allocatedLayers = 16 := by
    rw [hAL]; decide
  have hHN2 : (network.GetClusterInfoMetrics clusterExample).healthyNodes = 2 := by
    rw [hHN]; decide
  have hUtv : (network.GetClusterInfoMetrics clusterExample).clusterUtilization =
      4369067 / 262144 := by
    rw [hUt (by rw [hTL96]; norm_num), hTL96, hAL16, float32OfInt_sixteen,
      float32OfInt_ninetySix, float32Div_example, float32Mul_example]
  refine ⟨hTL96, hAL16, hHN2, hUtv, ?_⟩
  rw [hUtv, abs_of_pos (by norm_num)]
  norm_num

/-- C6: UpdateResources is a total state transformer (the Go method
cannot block or fail): it replaces the stored snapshot with the new
one, keeps the subscriber list length, and per subscriber performs a
non-blocking send — a channel below capacity receives a copy of the new
snapshot, a full channel is left entirely unchanged (the update is
dropped for that subscriber). -/
theorem updateResources_nonblocking (b : agent.Broadcaster)
    (r : models.ResourceInfo) :
    (b.UpdateResources r).resources = r ∧
    (b.UpdateResources r).listeners.length = b.listeners.length ∧
    (∀ (i : Nat) (ch : agent.ResourceChan), b.listeners[i]? = some ch →
      (ch.buf.length < ch.cap →
        (b.UpdateResources r).listeners[i]? =
          some { ch with buf := ch.buf ++ [r] }) ∧
      (¬ ch.buf.length < ch.cap →
        (b.UpdateResources r).listeners[i]? = some ch)) := by
  refine ⟨rfl, by simp [agent.Broadcaster.UpdateResources],
    fun i ch hch => ⟨fun hlt => ?_, fun hge => ?_⟩⟩
  · simp [agent.Broadcaster.UpdateResources, hch,
      agent.ResourceChan.trySend, hlt]
  · simp [agent.Broadcaster.UpdateResources, hch,
      agent.ResourceChan.trySend, hge]

/-- Witness for C6: updating resources while the only subscriber's
channel is full leaves that channel (contents included) unchanged. -/
theorem updateResources_nonblocking_witness :
    (sampleBroadcaster.UpdateResources sampleResources).listeners[0]? =
      some fullChan :=
  ((updateResources_nonblocking sampleBroadcaster sampleResources).2.2
    0 fullChan (by decide)).2 (by decide)

/-- C10: every node of the membership view GetNodes has Status Online
and LastSeen equal to the instant of the call, for every membership
state; consequently GetClusterInfo over this view reports healthyNodes
equal to totalNodes. -/
theorem getNodes_online_now (net : network.P2PNetwork) (now : Int) :
    (∀ node ∈ net.GetNodes now,
        node.status = models.NodeStatus.online ∧ node.lastSeen = now) ∧
    (network.GetClusterInfoMetrics (net.GetNodes now)).healthyNodes =
      (network.GetClusterInfoMetrics (net.GetNodes now)).totalNodes := by
  have hall : ∀ node ∈ net.GetNodes now,
      node.status = models.NodeStatus.online ∧ node.lastSeen = now := by
    intro node hnode
    cases h : net.memberlist with
    | none => simp [network.P2PNetwork.GetNodes, h] at hnode
    | some ml =>
        simp only [network.P2PNetwork.GetNodes, h, List.mem_map] at hnode
        obtain ⟨m, _, rfl⟩ := hnode
        exact ⟨rfl, rfl⟩
  have hfilter : (net.GetNodes now).filter
      (fun n => n.status == models.NodeStatus.online) = net.GetNodes now := by
    apply List.filter_eq_self.mpr
    intro n hn
    simp [(hall n hn).1]
  refine ⟨hall, ?_⟩
  simp [network.GetClusterInfoMetrics, hfilter]

/-- Witness for C10: the node produced from sampleNet's single gossip
member at instant 5 is Online with lastSeen = 5. -/
theorem getNodes_online_now_witness :
    sampleGossipNode.status = models.NodeStatus.online ∧
    sampleGossipNode.lastSeen = 5 :=
  (getNodes_online_now sampleNet 5).1 sampleGossipNode (by decide)
